import Mathlib

/-!
Verification development for the document-analysis pipeline
(`src/tools.py`, `src/agents.py`).

The external oracles (generation LLM, embedding service, PDF libraries,
Chroma vector store) are modelled as explicit environment records: each
oracle call is represented by its outcome (`Except` for calls that may
raise, parsed-structure outcomes for the regex+json parsing steps).
Everything that the Python control flow does with those outcomes is
translated literally.

Python strings are modelled as Lean `String` (with `List Char` for the
chunking arithmetic); `str.strip()` and `str.startswith` are modelled by
`pyStrip` and `pyStartsWith` below.
-/

namespace DocAgent

/-- ASCII whitespace as recognised by Python `str.strip()` / `str.isspace()`
for the character set relevant here. -/
def pyIsSpace (c : Char) : Bool :=
  c = ' ' || c = '\t' || c = '\n' || c = '\r' || c = '\x0b' || c = '\x0c'

/-- `str.strip()` on a character list. -/
def pyStripList (l : List Char) : List Char :=
  ((l.dropWhile pyIsSpace).reverse.dropWhile pyIsSpace).reverse

/-- `str.strip()`. -/
def pyStrip (s : String) : String :=
  String.mk (pyStripList s.data)

/-- `s.startswith(pre)`. -/
def pyStartsWith (s pre : String) : Bool :=
  pre.data.isPrefixOf s.data

/-- `os.path.basename` (POSIX): the part of the path after the last slash. -/
def basename (p : String) : String :=
  String.mk ((p.data.reverse.takeWhile (fun c => c ≠ '/')).reverse)

/-! ## Document store: chunking (`store_document`, `src/tools.py` 63-94)

`chunk_size = 1000`, `overlap = 200`; the Python loop is
`for i in range(0, len(content), chunk_size - overlap)` with
`chunk = content[i:i + chunk_size]`, kept only `if chunk.strip()`.
-/

/-- The window start offsets produced by `range(0, L, 800)`. -/
def chunkStarts (L : Nat) : List Nat :=
  (List.range ((L + 799) / 800)).map (fun j => 800 * j)

/-- `content[i : i + 1000]`. -/
def window (content : List Char) (i : Nat) : List Char :=
  (content.drop i).take 1000

/-- All candidate windows of the chunking loop. -/
def chunkWindows (content : List Char) : List (List Char) :=
  (chunkStarts content.length).map (window content)

/-- `if chunk.strip():` — the chunk is kept iff it has a non-whitespace
character. -/
def keepChunk (c : List Char) : Bool :=
  c.any (fun ch => !pyIsSpace ch)

/-- The chunks that `store_document` actually stores for a given content. -/
def storeChunks (content : List Char) : List (List Char) :=
  (chunkWindows content).filter keepChunk

/-- One stored chunk: Chroma document metadata `{"source": filename,
"chunk_id": position-among-kept-chunks}` plus the chunk text. -/
structure Entry where
  source : String
  chunk_id : Nat
  text : List Char
deriving DecidableEq, Repr

/-- The Chroma collection, as the list of stored chunk entries in insertion
order (`add_documents` appends). -/
abbrev Index := List Entry

/-- The two non-exceptional return messages of `store_document`, kept as
structured data (the Python function returns the corresponding strings). -/
inductive StoreResult where
  | skipped (filename : String)
  | stored (n : Nat) (filename : String)
deriving DecidableEq, Repr

/-- `vectorstore.get(where={"source": src})` — the entries stored under a
given source filename. -/
def entriesFor (idx : Index) (src : String) : List Entry :=
  idx.filter (fun e => e.source = src)

/-- `store_document(file_path, content)` (`src/tools.py` 63-94): identity is
`os.path.basename(file_path)`; if any chunks with that source exist the call
skips, otherwise the non-blank windows are appended with sequential
`chunk_id`. The embedding call is modelled as total (its failures are out of
scope of the claims settled against this definition). -/
def store_document (idx : Index) (file_path : String) (content : List Char) :
    Index × StoreResult :=
  let filename := basename file_path
  if 0 < (entriesFor idx filename).length then
    (idx, StoreResult.skipped filename)
  else
    let newEntries := (storeChunks content).enum.map
      (fun ic => { source := filename, chunk_id := ic.1, text := ic.2 : Entry })
    (idx ++ newEntries, StoreResult.stored newEntries.length filename)

/-! ## Document store: search (`search_document`, `src/tools.py` 98-114) -/

/-- Insert an entry into a list kept in non-increasing similarity order. -/
def insertRanked (score : Entry → Int) (e : Entry) : List Entry → List Entry
  | [] => [e]
  | x :: xs => if score x ≤ score e then e :: x :: xs else x :: insertRanked score e xs

/-- Order a candidate list by non-increasing similarity score. -/
def rankBy (score : Entry → Int) (l : List Entry) : List Entry :=
  l.foldr (insertRanked score) []

/-- `vectorstore.similarity_search(query, k, filter)`: the `k` most similar
entries among the candidates selected by the optional `{"source": f}`
filter. The embedding similarity of an entry to the query is supplied by the
environment as `score`. -/
def similarity_search (score : Entry → Int) (idx : Index)
    (filterSrc : Option String) (k : Nat) : List Entry :=
  let candidates := match filterSrc with
    | none => idx
    | some f => entriesFor idx f
  (rankBy score candidates).take k

/-- Environment for the retrieval / Q&A subsystem: the outcome of the Chroma
call (`searchExn = some e` models `similarity_search` raising), the
embedding-similarity oracle, and the generation oracle for the answer
prompt (a function of the retrieved context, `.error e` models a raised
exception). -/
structure QAEnv where
  searchExn : Option String
  sim : String → Entry → Int
  answerResp : String → Except String String

/-- `search_document(query, filename)` (`src/tools.py` 98-114): empty
`filename` means no filter; empty result list returns the explicit
sentinel; any exception is caught and returned as an error-marked string. -/
def search_document (env : QAEnv) (idx : Index) (query : String)
    (filename : String) : String :=
  match env.searchExn with
  | some e => "Error searching document: " ++ e
  | none =>
    let results := similarity_search (env.sim query) idx
      (if filename = "" then none else some filename) 5
    if results.isEmpty then "No relevant sections found."
    else String.intercalate "\n\n---\n\n" (results.map (fun r => String.mk r.text))

/-- `answer_question(question, filename, language)` (`src/agents.py`
303-329). The second component records the `(query, filename-filter)`
argument of every `search_document` call issued, to state retrieval-scope
properties. The source hardcodes the filter to `""`. -/
def answer_question (env : QAEnv) (idx : Index)
    (question filename language : String) : String × List (String × String) :=
  let context := search_document env idx question ""
  match env.answerResp context with
  | Except.error e => ("Error answering question: " ++ e, [(question, "")])
  | Except.ok c => (pyStrip c, [(question, "")])

/-! ## Pipeline state and oracle environment (`src/agents.py`) -/

/-- `DocumentState` (`src/agents.py` 32-45). `risk_score` is an `Int` since
the Python value is an unbounded int before clamping. -/
structure DocumentState where
  file_path : String
  filename : String
  raw_text : String
  summary : String
  key_info : String
  risks : String
  risk_score : Int
  risk_reasoning : String
  report : String
  language : String
  suggested_questions : List String
  status : String
  error : String
deriving DecidableEq, Repr

/-- Outcome of the score-parsing step of `calculate_risk_score`
(`src/agents.py` 174-190): `exn` models any raised exception (the
`llm.invoke` call, `json.loads`, or `int(...)` failing — all caught by the
outer `except`); `noMatch` models `re.search` finding no `{...}`; `parsed
score reasoning` models a successful regex match and `json.loads`, with
`score = int(data.get("score", 50))` and `reasoning =
data.get("reasoning", "")`. -/
inductive ScoreParse where
  | exn
  | noMatch
  | parsed (score : Int) (reasoning : String)
deriving DecidableEq, Repr

/-- Outcome of the question-list parsing of `generate_suggested_questions`
(`src/agents.py` 227-249), with the same conventions as `ScoreParse`. -/
inductive QParse where
  | exn
  | noMatch
  | parsed (qs : List String)
deriving DecidableEq, Repr

/-- Per-run outcomes of all external oracle calls: `Except.error e` models a
raised exception with message `e`, `Except.ok t` a returned text. -/
structure Env where
  fitzText : Except String String
  plumberText : Except String String
  detectResp : Except String String
  summarizeResp : Except String String
  keyInfoResp : Except String String
  risksResp : Except String String
  scoreResp : ScoreParse
  reportResp : Except String String
  questionsResp : QParse

/-- `extract_text_from_pdf` (`src/tools.py` 43-59): PyMuPDF text first; if
it is blank, append the pdfplumber text; return the stripped text; any
exception in either library is caught and returned as
`"Error extracting text: " ++ e`. -/
def extract_text_from_pdf (env : Env) : String :=
  match env.fitzText with
  | Except.error e => "Error extracting text: " ++ e
  | Except.ok t =>
    if pyStrip t = "" then
      match env.plumberText with
      | Except.error e => "Error extracting text: " ++ e
      | Except.ok t2 => pyStrip (t ++ t2)
    else pyStrip t

/-- `detect_language` (`src/agents.py` 49-63): returns the stripped oracle
response, or `"English"` on any exception. -/
def detect_language (env : Env) : String :=
  match env.detectResp with
  | Except.ok c => pyStrip c
  | Except.error _ => "English"

/-- `summarize_text` (`src/tools.py` 117-132). -/
def summarize_text (env : Env) : String :=
  match env.summarizeResp with
  | Except.ok c => pyStrip c
  | Except.error e => "Error summarizing: " ++ e

/-- `extract_key_info` (`src/tools.py` 136-160). -/
def extract_key_info (env : Env) : String :=
  match env.keyInfoResp with
  | Except.ok c => pyStrip c
  | Except.error e => "Error extracting info: " ++ e

/-- `flag_risks` (`src/tools.py` 164-185). -/
def flag_risks (env : Env) : String :=
  match env.risksResp with
  | Except.ok c => pyStrip c
  | Except.error e => "Error flagging risks: " ++ e

/-- A pipeline stage outcome: the new state plus the list of external
capability calls the stage issued (used to state that short-circuited runs
issue no further oracle calls). -/
abbrev Step := DocumentState × List String

/-- `document_processor` (`src/agents.py` 67-91): extract; if the result is
error-marked, fail; otherwise store the document, detect the language, and
set `status = "processed"`. -/
def document_processor (env : Env) (s : DocumentState) : Step :=
  let raw := extract_text_from_pdf env
  if pyStartsWith raw "Error" then
    ({ s with error := raw, status := "failed" }, ["extract_text_from_pdf"])
  else
    ({ s with
        raw_text := raw,
        language := detect_language env,
        status := "processed" },
     ["extract_text_from_pdf", "store_document", "detect_language"])

/-- `parallel_analysis` (`src/agents.py` 95-136): the three capability
results are joined into the state and `status = "analyzed"` is set
unconditionally — the results are not inspected. -/
def parallel_analysis (env : Env) (s : DocumentState) : Step :=
  ({ s with
      summary := summarize_text env,
      key_info := extract_key_info env,
      risks := flag_risks env,
      status := "analyzed" },
   ["summarize_text", "extract_key_info", "flag_risks"])

/-- `calculate_risk_score` (`src/agents.py` 141-190): clamp a parsed score
into `[0, 100]`; default to `50` with a diagnostic reasoning on a missing
match or any exception. The `status` field is not touched. -/
def calculate_risk_score (env : Env) (s : DocumentState) : Step :=
  match env.scoreResp with
  | ScoreParse.parsed sc r =>
    ({ s with risk_score := max 0 (min 100 sc), risk_reasoning := r }, ["score_llm"])
  | ScoreParse.noMatch =>
    ({ s with risk_score := 50, risk_reasoning := "Could not calculate score" }, ["score_llm"])
  | ScoreParse.exn =>
    ({ s with risk_score := 50, risk_reasoning := "Error calculating score" }, ["score_llm"])

/-- `report_agent` (`src/agents.py` 194-223): on oracle success set the
report and `status = "complete"`; on exception set `error` and
`status = "failed"`. -/
def report_agent (env : Env) (s : DocumentState) : Step :=
  match env.reportResp with
  | Except.ok c => ({ s with report := pyStrip c, status := "complete" }, ["report_llm"])
  | Except.error e => ({ s with error := e, status := "failed" }, ["report_llm"])

/-- `questions_agent` (`src/agents.py` 253-261) with
`generate_suggested_questions` (227-249): up to five parsed questions, empty
list on parse failure or exception; the `status` field is not touched. -/
def questions_agent (env : Env) (s : DocumentState) : Step :=
  match env.questionsResp with
  | QParse.parsed qs => ({ s with suggested_questions := qs.take 5 }, ["questions_llm"])
  | QParse.noMatch => ({ s with suggested_questions := [] }, ["questions_llm"])
  | QParse.exn => ({ s with suggested_questions := [] }, ["questions_llm"])

/-- `should_continue` (`src/agents.py` 265-270): `true` stands for the
`"continue"` edge, `false` for `END`. -/
def should_continue (s : DocumentState) : Bool :=
  if s.status = "failed" then false else true

/-- One conditional edge of the compiled graph (`build_pipeline`,
`src/agents.py` 274-295): the next stage runs only when `should_continue`
routes to it; otherwise the run ends with the current state and no further
calls. -/
def routeStep (f : DocumentState → Step) (p : Step) : Step :=
  if should_continue p.1 then ((f p.1).1, p.2 ++ (f p.1).2) else p

/-- The compiled pipeline: entry point `document_processor`, then the four
conditionally-guarded stages in graph order. -/
def runPipeline (env : Env) (s0 : DocumentState) : Step :=
  let p1 := document_processor env s0
  let p2 := routeStep (parallel_analysis env) p1
  let p3 := routeStep (calculate_risk_score env) p2
  let p4 := routeStep (report_agent env) p3
  routeStep (questions_agent env) p4

/-- The initial state built by `analyze_document` (`src/agents.py`
340-354). -/
def initialState (file_path : String) : DocumentState :=
  { file_path := file_path,
    filename := basename file_path,
    raw_text := "",
    summary := "",
    key_info := "",
    risks := "",
    risk_score := 0,
    risk_reasoning := "",
    report := "",
    language := "English",
    suggested_questions := [],
    status := "starting",
    error := "" }

/-- `analyze_document` (`src/agents.py` 333-370): run the pipeline from the
fresh initial state. -/
def analyze_document (env : Env) (file_path : String) : Step :=
  runPipeline env (initialState file_path)

/-- The status after each pipeline point of a run: initial, then after each
of the five stages (a short-circuited stage repeats the previous status,
since the state is returned unchanged). -/
def statusTrace (env : Env) (file_path : String) : List String :=
  let s0 := initialState file_path
  let p1 := document_processor env s0
  let p2 := routeStep (parallel_analysis env) p1
  let p3 := routeStep (calculate_risk_score env) p2
  let p4 := routeStep (report_agent env) p3
  let p5 := routeStep (questions_agent env) p4
  [s0.status, p1.1.status, p2.1.status, p3.1.status, p4.1.status, p5.1.status]

/-- The analytic fields of a state, in the order summary, key_info, risks,
risk_score, report, suggested_questions. -/
def analyticFields (s : DocumentState) :
    String × String × String × Int × String × List String :=
  (s.summary, s.key_info, s.risks, s.risk_score, s.report, s.suggested_questions)

/-! ## Helper lemmas -/

lemma pyStartsWith_append_append (a b c : String) :
    pyStartsWith (a ++ b ++ c) a = true := by
  simp only [pyStartsWith, String.data_append, List.append_assoc]
  exact List.isPrefixOf_iff_prefix.mpr (List.prefix_append _ _)

lemma pyStartsWith_error_split {pre : String} (rest : String)
    (hpre : pre = "Error" ++ rest) (e : String) :
    pyStartsWith (pre ++ e) "Error" = true := by
  rw [hpre]
  exact pyStartsWith_append_append _ _ _

lemma append_ne_empty {s : String} (h : s.data ≠ []) (t : String) :
    (s ++ t) ≠ "" := by
  intro hc
  apply h
  have hd : (s ++ t).data = ("" : String).data := congrArg String.data hc
  rw [String.data_append] at hd
  have h0 : ("" : String).data = [] := rfl
  rw [h0] at hd
  exact (List.append_eq_nil.mp hd).1

lemma mem_chunkStarts {L i : Nat} (h : i ∈ chunkStarts L) : i < L := by
  simp only [chunkStarts, List.mem_map, List.mem_range] at h
  obtain ⟨j, hj, rfl⟩ := h
  omega

lemma window_ne_nil {content : List Char} {i : Nat} (h : i < content.length) :
    window content i ≠ [] := by
  have hl : (window content i).length = min 1000 (content.length - i) := by
    simp [window]
  intro hnil
  rw [hnil] at hl
  simp at hl
  omega

lemma keepChunk_window {content : List Char}
    (hall : ∀ ch ∈ content, pyIsSpace ch = false)
    {i : Nat} (hi : i < content.length) :
    keepChunk (window content i) = true := by
  obtain ⟨a, ha⟩ := List.exists_mem_of_ne_nil _ (window_ne_nil hi)
  have hmem : a ∈ content := List.mem_of_mem_drop (List.mem_of_mem_take ha)
  simp only [keepChunk, List.any_eq_true]
  exact ⟨a, ha, by simp [hall a hmem]⟩

lemma storeChunks_length_nonblank {content : List Char}
    (hall : ∀ ch ∈ content, pyIsSpace ch = false) :
    (storeChunks content).length = (content.length + 799) / 800 := by
  have hfil : (chunkWindows content).filter keepChunk = chunkWindows content := by
    rw [List.filter_eq_self]
    intro c hc
    simp only [chunkWindows, List.mem_map] at hc
    obtain ⟨i, hi, rfl⟩ := hc
    exact keepChunk_window hall (mem_chunkStarts hi)
  rw [storeChunks, hfil]
  simp [chunkWindows, chunkStarts]

/-! ## Claim C4 -/

/-- Claim C4: ingestion chunks the text with window `W = 1000` and overlap
`O = 200`, each window start advancing by `W − O = 800` (see `chunkStarts`
and `window`); no stored chunk is empty or whitespace-only; and for an
input of length `L` whose characters are non-whitespace (so that only the
trailing remainder could be blank, and it is not), the stored chunk count
is `ceil(max(0, L−O) / (W−O))`, adjusted by one extra chunk when the
trailing remainder is a non-empty window of at most `O` characters. -/
theorem chunking_policy :
    (∀ content : List Char, ∀ c ∈ storeChunks content, keepChunk c = true) ∧
    (∀ content : List Char, (∀ ch ∈ content, pyIsSpace ch = false) →
      (storeChunks content).length
        = (max 0 (content.length - 200) + 799) / 800
          + (if content.length % 800 ≠ 0 ∧ content.length % 800 ≤ 200
             then 1 else 0)) := by
  constructor
  · intro content c hc
    exact List.of_mem_filter hc
  · intro content hall
    rw [storeChunks_length_nonblank hall, Nat.zero_max]
    by_cases h : content.length % 800 ≠ 0 ∧ content.length % 800 ≤ 200
    · rw [if_pos h]
      omega
    · rw [if_neg h]
      push_neg at h
      rcases Nat.eq_zero_or_pos (content.length % 800) with h0 | h0
      · omega
      · have := h (by omega)
        omega

/-- Witness for the chunking count at a concrete input of length 2. -/
theorem chunking_policy_witness :
    (storeChunks (String.data "ab")).length = 1 := by
  have h := chunking_policy.2 (String.data "ab") (by decide)
  rw [h]
  decide

/-! ## Store lemmas -/

lemma entriesFor_append (idx1 idx2 : Index) (f : String) :
    entriesFor (idx1 ++ idx2) f = entriesFor idx1 f ++ entriesFor idx2 f := by
  simp [entriesFor, List.filter_append]

lemma entriesFor_new_self (filename : String) (content : List Char) :
    entriesFor ((storeChunks content).enum.map
        (fun ic => { source := filename, chunk_id := ic.1, text := ic.2 : Entry }))
        filename
      = (storeChunks content).enum.map
        (fun ic => { source := filename, chunk_id := ic.1, text := ic.2 : Entry }) := by
  rw [entriesFor, List.filter_eq_self]
  intro e he
  simp only [List.mem_map] at he
  obtain ⟨ic, hic, rfl⟩ := he
  simp

lemma entriesFor_new_other {filename f : String} (hne : ¬ filename = f)
    (content : List Char) :
    entriesFor ((storeChunks content).enum.map
        (fun ic => { source := filename, chunk_id := ic.1, text := ic.2 : Entry })) f
      = [] := by
  rw [entriesFor, List.filter_eq_nil_iff]
  intro e he
  simp only [List.mem_map] at he
  obtain ⟨ic, hic, rfl⟩ := he
  simp [hne]

lemma store_document_skip {idx : Index} {p : String} (content : List Char)
    (h : entriesFor idx (basename p) ≠ []) :
    store_document idx p content = (idx, StoreResult.skipped (basename p)) := by
  simp only [store_document]
  rw [if_pos (List.length_pos.mpr h)]

lemma store_document_fresh {idx : Index} {p : String} (content : List Char)
    (h : entriesFor idx (basename p) = []) :
    store_document idx p content
      = (idx ++ (storeChunks content).enum.map
            (fun ic => { source := basename p, chunk_id := ic.1, text := ic.2 : Entry }),
          StoreResult.stored (storeChunks content).length (basename p)) := by
  simp only [store_document]
  rw [if_neg]
  · simp
  · rw [h]
    simp

lemma entriesFor_store_preserved {idx : Index} {f : String}
    (h : entriesFor idx f ≠ []) (p : String) (content : List Char) :
    entriesFor (store_document idx p content).1 f = entriesFor idx f := by
  by_cases hb : basename p = f
  · rw [store_document_skip content (by rw [hb]; exact h)]
  · by_cases hidx : entriesFor idx (basename p) = []
    · rw [store_document_fresh content hidx]
      simp only
      rw [entriesFor_append, entriesFor_new_other hb content, List.append_nil]
    · rw [store_document_skip content hidx]

/-! ## Claim C10 -/

/-- Claim C10: the ingestion identity is solely the basename of the file
path (calls with paths of equal basename behave identically); ingestion is
skipped whenever any chunks with that source name exist, storing nothing;
and the chunk set recorded for a filename, once non-empty, is never
modified by any later ingest call, whatever its path and content. -/
theorem store_identity_and_freeze :
    (∀ (idx : Index) (content : List Char) (p1 p2 : String),
      basename p1 = basename p2 →
      store_document idx p1 content = store_document idx p2 content)
    ∧ (∀ (idx : Index) (content : List Char) (p : String),
      entriesFor idx (basename p) ≠ [] →
      store_document idx p content = (idx, StoreResult.skipped (basename p)))
    ∧ (∀ (idx : Index) (content : List Char) (p f : String),
      entriesFor idx f ≠ [] →
      entriesFor (store_document idx p content).1 f = entriesFor idx f) := by
  refine ⟨?_, ?_, ?_⟩
  · intro idx content p1 p2 h
    simp only [store_document]
    rw [h]
  · intro idx content p h
    exact store_document_skip content h
  · intro idx content p f h
    exact entriesFor_store_preserved h p content

/-- Witness: a second path with the same basename is skipped once one chunk
for that filename is stored. -/
theorem store_identity_and_freeze_witness :
    store_document [⟨"a.pdf", 0, ['x']⟩] "dir/a.pdf" ['y']
      = ([⟨"a.pdf", 0, ['x']⟩], StoreResult.skipped "a.pdf") := by
  have h := store_identity_and_freeze.2.1 [⟨"a.pdf", 0, ['x']⟩] ['y'] "dir/a.pdf"
    (by decide)
  have hb : basename "dir/a.pdf" = "a.pdf" := by decide
  rw [h, hb]

/-! ## Claim C7 -/

/-- Claim C7 counterexample: with the same identity `a.pdf`, a first ingest
of whitespace-only text stores zero chunks, so the second call with other
text is not a no-op — it stores one chunk and grows the index from zero to
one entry of that source, contradicting idempotence for arbitrary texts. -/
theorem ingest_twice_not_idempotent :
    (store_document [] "a.pdf" [' ']).2 = StoreResult.stored 0 "a.pdf"
    ∧ (store_document [] "a.pdf" [' ']).1 = []
    ∧ (store_document (store_document [] "a.pdf" [' ']).1 "a.pdf" ['h', 'i']).2
        = StoreResult.stored 1 "a.pdf"
    ∧ (store_document (store_document [] "a.pdf" [' ']).1 "a.pdf" ['h', 'i']).1.length
        = 1 := by decide

/-- Claim C7 (amended): whenever the first ingest call actually stores at
least one chunk (its content has a non-blank window), a second call with
the same path and any content is a no-op: it reports a skip and leaves the
index exactly as the first call left it. -/
theorem ingest_idempotent (idx : Index) (path : String) (c1 c2 : List Char)
    (h : storeChunks c1 ≠ []) :
    store_document (store_document idx path c1).1 path c2
      = ((store_document idx path c1).1, StoreResult.skipped (basename path)) := by
  by_cases hidx : entriesFor idx (basename path) = []
  · rw [store_document_fresh c1 hidx]
    simp only
    apply store_document_skip
    rw [entriesFor_append, hidx, List.nil_append, entriesFor_new_self]
    intro hn
    apply h
    have hlen := congrArg List.length hn
    simp [List.enum_length] at hlen
    exact hlen
  · rw [store_document_skip c1 hidx]
    simp only
    exact store_document_skip c2 hidx

/-- Witness for the amended idempotence at a concrete non-blank document. -/
theorem ingest_idempotent_witness :
    storeChunks ['a'] ≠ []
    ∧ store_document (store_document [] "b.pdf" ['a']).1 "b.pdf" ['z']
        = ((store_document [] "b.pdf" ['a']).1, StoreResult.skipped "b.pdf") := by
  refine ⟨by decide, ?_⟩
  have h := ingest_idempotent [] "b.pdf" ['a'] ['z'] (by decide)
  have hb : basename "b.pdf" = "b.pdf" := by decide
  rw [h, hb]

/-! ## Claim C9 -/

/-- Claim C9: when no exception occurs, searching an empty index — or
searching with a source filter that matches no stored entry — returns the
explicit sentinel string, never an empty result. -/
theorem search_empty_sentinel (env : QAEnv) (query filename : String)
    (idx : Index) (hex : env.searchExn = none) :
    (search_document env [] query filename = "No relevant sections found.")
    ∧ (filename ≠ "" → entriesFor idx filename = [] →
        search_document env idx query filename = "No relevant sections found.") := by
  constructor
  · by_cases hf : filename = "" <;>
      simp [search_document, hex, similarity_search, entriesFor, rankBy, hf]
  · intro hf hnil
    simp [search_document, hex, similarity_search, hf, hnil, rankBy]

/-- Witness: the sentinel at a concrete environment and empty index. -/
theorem search_empty_sentinel_witness :
    search_document ⟨none, fun _ _ => 0, fun _ => Except.ok "a"⟩ [] "what" "doc.pdf"
      = "No relevant sections found." :=
  (search_empty_sentinel ⟨none, fun _ _ => 0, fun _ => Except.ok "a"⟩
    "what" "doc.pdf" [] rfl).1

/-! ## Pipeline routing lemmas -/

lemma routeStep_failed {p : Step} (f : DocumentState → Step)
    (h : p.1.status = "failed") : routeStep f p = p := by
  simp [routeStep, should_continue, h]

lemma routeStep_cont {p : Step} (f : DocumentState → Step)
    (h : ¬ p.1.status = "failed") :
    routeStep f p = ((f p.1).1, p.2 ++ (f p.1).2) := by
  simp [routeStep, should_continue, h]

/-! ## Claim C5 -/

/-- Claim C5: before every stage transition the router inspects the status;
a failed state passes through every remaining conditional edge unchanged
(no stage function is applied, no capability call is appended, the failure
state is returned as is); and the two stages that can set `failed`
(`document_processor` and `report_agent`) leave every analytic field
untouched when they fail, mutating only `error` and `status`. Hence in a
run that fails at extraction, the whole pipeline collapses to the output of
`document_processor`. -/
theorem failed_short_circuit :
    (∀ (f : DocumentState → Step) (p : Step),
      p.1.status = "failed" → routeStep f p = p)
    ∧ (∀ (env : Env) (s : DocumentState),
      (document_processor env s).1.status = "failed" →
      analyticFields (document_processor env s).1 = analyticFields s)
    ∧ (∀ (env : Env) (s : DocumentState),
      (report_agent env s).1.status = "failed" →
      analyticFields (report_agent env s).1 = analyticFields s)
    ∧ (∀ (env : Env) (s0 : DocumentState),
      (document_processor env s0).1.status = "failed" →
      runPipeline env s0 = document_processor env s0) := by
  refine ⟨?_, ?_, ?_, ?_⟩
  · intro f p h
    exact routeStep_failed f h
  · intro env s h
    by_cases hm : pyStartsWith (extract_text_from_pdf env) "Error" = true
    · simp [document_processor, hm, analyticFields]
    · simp [document_processor, hm] at h
  · intro env s h
    cases hr : env.reportResp with
    | ok c => simp [report_agent, hr] at h
    | error e => simp [report_agent, hr, analyticFields]
  · intro env s0 h
    show routeStep (questions_agent env) (routeStep (report_agent env)
      (routeStep (calculate_risk_score env) (routeStep (parallel_analysis env)
        (document_processor env s0)))) = document_processor env s0
    rw [routeStep_failed _ h, routeStep_failed _ h, routeStep_failed _ h,
      routeStep_failed _ h]

/-- Concrete environment with a failing extraction backend. -/
def envC5 : Env :=
  { fitzText := Except.error "boom", plumberText := Except.ok "",
    detectResp := Except.ok "English", summarizeResp := Except.ok "s",
    keyInfoResp := Except.ok "k", risksResp := Except.ok "r",
    scoreResp := ScoreParse.exn, reportResp := Except.ok "rep",
    questionsResp := QParse.exn }

/-- A concrete already-failed step. -/
def failedStepC5 : Step :=
  ({ initialState "x.pdf" with status := "failed", error := "E" }, [])

/-- Witness: the router returns a failed step unchanged without applying
the next stage. -/
theorem failed_short_circuit_witness :
    routeStep (parallel_analysis envC5) failedStepC5 = failedStepC5 :=
  failed_short_circuit.1 (parallel_analysis envC5) failedStepC5 rfl

/-! ## Claim C1 -/

/-- The extraction call raises: either PyMuPDF raises, or it returns blank
text and the pdfplumber fallback raises (both are caught by the single
`except` of `extract_text_from_pdf` and turned into the error-marked
string). -/
def extractionRaises (env : Env) : Prop :=
  (∃ e, env.fitzText = Except.error e)
  ∨ (∃ t e, env.fitzText = Except.ok t ∧ pyStrip t = ""
      ∧ env.plumberText = Except.error e)

lemma extract_of_raises {env : Env} (h : extractionRaises env) :
    ∃ e, extract_text_from_pdf env = "Error extracting text: " ++ e := by
  rcases h with ⟨e, he⟩ | ⟨t, e, ht, hs, hp⟩
  · exact ⟨e, by simp [extract_text_from_pdf, he]⟩
  · exact ⟨e, by simp [extract_text_from_pdf, ht, hs, hp]⟩

/-- Claim C1 counterexample: when both strategies succeed but yield no text
(an empty document rather than a raised exception), the extractor returns
the empty string — not a typed, error-marked failure — so the processor
does not fail the run: the pipeline continues through every analysis stage
and ends with `status = "complete"` and an empty error. -/
def envEmptyPdf : Env :=
  { fitzText := Except.ok "", plumberText := Except.ok "",
    detectResp := Except.ok "English", summarizeResp := Except.ok "sum",
    keyInfoResp := Except.ok "info", risksResp := Except.ok "risk",
    scoreResp := ScoreParse.parsed 5 "low", reportResp := Except.ok "report",
    questionsResp := QParse.parsed ["q1"] }

/-- Claim C1 counterexample theorem (see `envEmptyPdf`). -/
theorem empty_extraction_not_failed :
    extract_text_from_pdf envEmptyPdf = ""
    ∧ (analyze_document envEmptyPdf "doc.pdf").1.status = "complete"
    ∧ (analyze_document envEmptyPdf "doc.pdf").1.error = ""
    ∧ (analyze_document envEmptyPdf "doc.pdf").2
        = ["extract_text_from_pdf", "store_document", "detect_language",
           "summarize_text", "extract_key_info", "flag_risks",
           "score_llm", "report_llm", "questions_llm"] := by decide

/-- Claim C1 (amended): for every document whose extraction raises (corrupt
file), the extractor returns the typed error-marked string, the run ends
failed with a non-empty error, no capability is invoked past extraction
(the full call log is the single extraction call), and no analytic field is
touched. When both strategies merely yield no text, the extractor instead
returns the empty string and the run proceeds (see
`empty_extraction_not_failed`). -/
theorem extraction_exception_fails_run (env : Env) (path : String)
    (h : extractionRaises env) :
    pyStartsWith (extract_text_from_pdf env) "Error" = true
    ∧ extract_text_from_pdf env ≠ ""
    ∧ (analyze_document env path).1.status = "failed"
    ∧ (analyze_document env path).1.error ≠ ""
    ∧ (analyze_document env path).2 = ["extract_text_from_pdf"]
    ∧ analyticFields (analyze_document env path).1
        = analyticFields (initialState path) := by
  obtain ⟨e, hex⟩ := extract_of_raises h
  have hsplit : ("Error extracting text: " : String)
      = "Error" ++ " extracting text: " := by decide
  have hmark : pyStartsWith (extract_text_from_pdf env) "Error" = true := by
    rw [hex]
    exact pyStartsWith_error_split " extracting text: " hsplit e
  have hne : extract_text_from_pdf env ≠ "" := by
    rw [hex]
    exact append_ne_empty (by decide) e
  have hp1 : document_processor env (initialState path)
      = ({ initialState path with
            error := extract_text_from_pdf env, status := "failed" },
         ["extract_text_from_pdf"]) := by
    simp [document_processor, hmark]
  have hfail : (document_processor env (initialState path)).1.status
      = "failed" := by
    rw [hp1]
  have hrun : analyze_document env path
      = ({ initialState path with
            error := extract_text_from_pdf env, status := "failed" },
         ["extract_text_from_pdf"]) := by
    show routeStep (questions_agent env) (routeStep (report_agent env)
      (routeStep (calculate_risk_score env) (routeStep (parallel_analysis env)
        (document_processor env (initialState path))))) = _
    rw [routeStep_failed _ hfail, routeStep_failed _ hfail,
      routeStep_failed _ hfail, routeStep_failed _ hfail, hp1]
  refine ⟨hmark, hne, ?_, ?_, ?_, ?_⟩
  · rw [hrun]
  · rw [hrun]
    exact hne
  · rw [hrun]
  · rw [hrun]
    rfl

/-- Witness for the amended extraction-failure behaviour at a concrete
corrupt document. -/
theorem extraction_exception_fails_run_witness :
    extractionRaises envC5
    ∧ (analyze_document envC5 "broken.pdf").1.status = "failed" :=
  ⟨Or.inl ⟨"boom", rfl⟩,
    (extraction_exception_fails_run envC5 "broken.pdf"
      (Or.inl ⟨"boom", rfl⟩)).2.2.1⟩

/-! ## Claim C2 -/

/-- Concrete environment in which the summarizer raises while the rest of
the run is benign. -/
def envC2 : Env :=
  { fitzText := Except.ok "Contract body", plumberText := Except.ok "",
    detectResp := Except.ok "English", summarizeResp := Except.error "boom",
    keyInfoResp := Except.ok "ok", risksResp := Except.ok "fine",
    scoreResp := ScoreParse.parsed 30 "r", reportResp := Except.ok "rep",
    questionsResp := QParse.parsed [] }

/-- Claim C2 counterexample: with the summarizer raising, the parallel
stage stores the error-marked string, the run is never converted to a
failure, and the poisoned result is consumed downstream: scoring and
reporting are both invoked (see the call log) and the run completes. -/
theorem poisoned_summary_completes :
    (analyze_document envC2 "c.pdf").1.summary = "Error summarizing: boom"
    ∧ pyStartsWith (analyze_document envC2 "c.pdf").1.summary "Error" = true
    ∧ (analyze_document envC2 "c.pdf").1.status = "complete"
    ∧ (analyze_document envC2 "c.pdf").2
        = ["extract_text_from_pdf", "store_document", "detect_language",
           "summarize_text", "extract_key_info", "flag_risks",
           "score_llm", "report_llm", "questions_llm"] := by decide

/-- Claim C2 (amended): the orchestrator does not inspect the three
analysis results for error markers: the parallel stage unconditionally
sets `status = "analyzed"`, the router therefore routes onward, and when a
capability raised, its error-marked string is what is stored in the state
and handed to the later stages. -/
theorem parallel_errors_not_detected (env : Env) (s : DocumentState) :
    (parallel_analysis env s).1.status = "analyzed"
    ∧ should_continue (parallel_analysis env s).1 = true
    ∧ (∀ e, env.summarizeResp = Except.error e →
        (parallel_analysis env s).1.summary = "Error summarizing: " ++ e
        ∧ pyStartsWith (parallel_analysis env s).1.summary "Error" = true) := by
  refine ⟨rfl, by simp [should_continue, parallel_analysis], ?_⟩
  intro e he
  have hsum : (parallel_analysis env s).1.summary = "Error summarizing: " ++ e := by
    simp [parallel_analysis, summarize_text, he]
  refine ⟨hsum, ?_⟩
  rw [hsum]
  exact pyStartsWith_error_split " summarizing: " (by decide) e

/-- Witness: the error-marked summary is stored and the stage still
reports `analyzed`. -/
theorem parallel_errors_not_detected_witness :
    (parallel_analysis envC2 (initialState "c.pdf")).1.summary
      = "Error summarizing: boom"
    ∧ (parallel_analysis envC2 (initialState "c.pdf")).1.status = "analyzed" :=
  ⟨((parallel_errors_not_detected envC2 (initialState "c.pdf")).2.2 "boom" rfl).1,
    (parallel_errors_not_detected envC2 (initialState "c.pdf")).1⟩

/-! ## Claim C3 -/

/-- Benign concrete environment for a full successful run. -/
def envC3 : Env :=
  { fitzText := Except.ok "Certificate of Completion", plumberText := Except.ok "",
    detectResp := Except.ok "English", summarizeResp := Except.ok "sum",
    keyInfoResp := Except.ok "info", risksResp := Except.ok "risk",
    scoreResp := ScoreParse.parsed 5 "low", reportResp := Except.ok "report",
    questionsResp := QParse.parsed ["q1", "q2"] }

/-- Claim C3 counterexample: in a benign full run the status sequence is
`starting, processed, analyzed, analyzed, complete, complete` — the status
`"scored"` never occurs (the risk-scoring stage leaves the status at
`"analyzed"`), and it is the report stage, not the questions stage, that
sets `"complete"` (the questions stage repeats it unchanged). -/
theorem no_scored_status :
    statusTrace envC3 "doc.pdf"
      = ["starting", "processed", "analyzed", "analyzed", "complete", "complete"]
    ∧ "scored" ∉ statusTrace envC3 "doc.pdf"
    ∧ (questions_agent envC3
        (report_agent envC3 (initialState "doc.pdf")).1).1.status
      = (report_agent envC3 (initialState "doc.pdf")).1.status := by decide

/-- Claim C3 (amended): every non-failing run passes through the statuses
`starting → processed → analyzed → complete`: the risk-scoring stage
preserves the status (its postcondition is still `"analyzed"`), the report
stage is the one that sets `"complete"`, and the questions stage preserves
the status. -/
theorem status_progression (env : Env) (path : String)
    (hx : pyStartsWith (extract_text_from_pdf env) "Error" = false)
    (hr : ∃ c, env.reportResp = Except.ok c) :
    statusTrace env path
      = ["starting", "processed", "analyzed", "analyzed", "complete", "complete"]
    ∧ (∀ s, (calculate_risk_score env s).1.status = s.status)
    ∧ (∀ s, (questions_agent env s).1.status = s.status)
    ∧ (∀ s c, env.reportResp = Except.ok c →
        (report_agent env s).1.status = "complete") := by
  obtain ⟨c, hc⟩ := hr
  refine ⟨?_, ?_, ?_, ?_⟩
  · cases hs : env.scoreResp <;> cases hq : env.questionsResp <;>
      simp [statusTrace, document_processor, initialState, hx, routeStep,
        should_continue, parallel_analysis, calculate_risk_score, report_agent,
        questions_agent, hs, hq, hc]
  · intro s
    cases hs : env.scoreResp <;> simp [calculate_risk_score, hs]
  · intro s
    cases hq : env.questionsResp <;> simp [questions_agent, hq]
  · intro s c2 hc2
    simp [report_agent, hc2]

/-- Witness for the amended status progression at a benign environment. -/
theorem status_progression_witness :
    statusTrace envC3 "doc.pdf"
      = ["starting", "processed", "analyzed", "analyzed", "complete", "complete"] :=
  (status_progression envC3 "doc.pdf" (by decide) ⟨"report", rfl⟩).1

/-! ## Claim C6 -/

/-- Claim C6: the risk-scoring stage clamps every parsed score into
`[0, 100]`; on a response with no parsable structure it defaults to `50`
with the diagnostic `"Could not calculate score"`; on any exception it
defaults to `50` with the diagnostic `"Error calculating score"`; the
resulting score always lies in `[0, 100]`; and the stage never changes the
status, so it never marks the run failed. -/
theorem risk_score_clamped_default (env : Env) (s : DocumentState) :
    (calculate_risk_score env s).1.status = s.status
    ∧ (0 ≤ (calculate_risk_score env s).1.risk_score
        ∧ (calculate_risk_score env s).1.risk_score ≤ 100)
    ∧ (env.scoreResp = ScoreParse.noMatch →
        (calculate_risk_score env s).1.risk_score = 50
        ∧ (calculate_risk_score env s).1.risk_reasoning
            = "Could not calculate score")
    ∧ (env.scoreResp = ScoreParse.exn →
        (calculate_risk_score env s).1.risk_score = 50
        ∧ (calculate_risk_score env s).1.risk_reasoning
            = "Error calculating score")
    ∧ (∀ sc r, env.scoreResp = ScoreParse.parsed sc r →
        (calculate_risk_score env s).1.risk_score = max 0 (min 100 sc)
        ∧ (calculate_risk_score env s).1.risk_reasoning = r) := by
  refine ⟨?_, ?_, ?_, ?_, ?_⟩
  · cases hs : env.scoreResp <;> simp [calculate_risk_score, hs]
  · cases hs : env.scoreResp <;> simp [calculate_risk_score, hs]
  · intro hs
    simp [calculate_risk_score, hs]
  · intro hs
    simp [calculate_risk_score, hs]
  · intro sc r hs
    simp [calculate_risk_score, hs]

/-- Concrete environment whose score response parses to an out-of-range
value. -/
def envC6 : Env :=
  { fitzText := Except.ok "text", plumberText := Except.ok "",
    detectResp := Except.ok "English", summarizeResp := Except.ok "s",
    keyInfoResp := Except.ok "k", risksResp := Except.ok "r",
    scoreResp := ScoreParse.parsed 250 "big", reportResp := Except.ok "rep",
    questionsResp := QParse.parsed [] }

/-- Witness: an out-of-range parsed score is clamped to 100 and the status
is untouched. -/
theorem risk_score_clamped_default_witness :
    (calculate_risk_score envC6 (initialState "a.pdf")).1.risk_score
      = max 0 (min 100 250)
    ∧ (calculate_risk_score envC6 (initialState "a.pdf")).1.status
      = (initialState "a.pdf").status :=
  ⟨((risk_score_clamped_default envC6 (initialState "a.pdf")).2.2.2.2
      250 "big" rfl).1,
    (risk_score_clamped_default envC6 (initialState "a.pdf")).1⟩

/-! ## Claim C8 -/

/-- Claim C8 counterexample: on a retrieval failure the search tool absorbs
the exception into an error-marked context string, but the Q&A responder
then returns the generation oracle answer built from that context — a
string that is not error-marked — contradicting the claim that any
retrieval failure yields an error-marked return from the responder. -/
def qaEnvDown : QAEnv :=
  { searchExn := some "connection refused",
    sim := fun _ _ => 0,
    answerResp := fun _ => Except.ok "The notice period is 30 days." }

/-- Claim C8 counterexample theorem (see `qaEnvDown`). -/
theorem retrieval_failure_answer_unmarked :
    search_document qaEnvDown [] "q" ""
      = "Error searching document: connection refused"
    ∧ (answer_question qaEnvDown [] "q" "contract.pdf" "English").1
      = "The notice period is 30 days."
    ∧ pyStartsWith
        (answer_question qaEnvDown [] "q" "contract.pdf" "English").1 "Error"
      = false := by decide

/-- Claim C8 (amended): for every question, document identity and language,
the responder performs exactly one similarity search and passes it the
empty document filter (the search is unfiltered, whatever filename was
given); on a generation-oracle failure it returns the error-marked
explanatory string instead of raising; a retrieval failure, however, is
absorbed by the search tool into an error-marked context string and the
responder returns the oracle answer unchanged. -/
theorem answer_unfiltered (env : QAEnv) (idx : Index)
    (question filename language : String) :
    (answer_question env idx question filename language).2 = [(question, "")]
    ∧ (∀ e, env.answerResp (search_document env idx question "")
          = Except.error e →
        (answer_question env idx question filename language).1
          = "Error answering question: " ++ e
        ∧ pyStartsWith
            (answer_question env idx question filename language).1 "Error"
          = true)
    ∧ (∀ e c, env.searchExn = some e →
        env.answerResp (search_document env idx question "") = Except.ok c →
        (answer_question env idx question filename language).1 = pyStrip c) := by
  refine ⟨?_, ?_, ?_⟩
  · cases h : env.answerResp (search_document env idx question "") <;>
      simp [answer_question, h]
  · intro e he
    have ha : (answer_question env idx question filename language).1
        = "Error answering question: " ++ e := by
      simp [answer_question, he]
    refine ⟨ha, ?_⟩
    rw [ha]
    exact pyStartsWith_error_split " answering question: " (by decide) e
  · intro e c hse hc
    simp [answer_question, hc]

/-- Concrete environment whose generation oracle raises on the answer
prompt. -/
def qaEnvOracleFail : QAEnv :=
  { searchExn := none, sim := fun _ _ => 0,
    answerResp := fun _ => Except.error "timeout" }

/-- Witness: the error-marked answer on a generation-oracle failure. -/
theorem answer_unfiltered_witness :
    (answer_question qaEnvOracleFail [] "q" "contract.pdf" "English").1
      = "Error answering question: timeout" :=
  ((answer_unfiltered qaEnvOracleFail [] "q" "contract.pdf" "English").2.1
    "timeout" rfl).1

end DocAgent
